import Mathlib

/-!
Shallow embedding of `src/smoke/bootstrap.ts` (the extended k6 script, the
second document in the file: scenario option resolution, the per-iteration
entry point `runScenario`, the module-level aggregation state, and the
`handleSummary` reporter).

Modelling conventions:
* JavaScript numbers are modelled by `JSNum`: NaN, the two infinities, and
  finite values as exact rationals.  HTTP statuses are natural numbers.
* The k6 collaborators (`http.request`, `sleep`, `check`, the `Counter` and
  `Trend` metrics, `console`) are external: the transport outcome of an
  iteration is an explicit `TransportResult` argument, `sleep` calls are
  counted in the `pauses` field, counters live in `AggState`.
* The mutable module state (`statusCounts`, `statusOrder`, `dataErrors`,
  the error counters) is the explicit state record `AggState`, threaded
  through `runScenario`.
-/

namespace SmokeBootstrap

/-- A JavaScript number: NaN, one of the two infinities, or a finite value
(idealised as an exact rational). -/
inductive JSNum where
  | nan
  | posInf
  | negInf
  | finite (q : ℚ)
deriving DecidableEq

/-- JS `Number.isNaN`. -/
def JSNum.isNaN : JSNum → Bool
  | .nan => true
  | _ => false

/-- The JS comparison `x > 0` (false for NaN, true for positive infinity). -/
def JSNum.isPos : JSNum → Bool
  | .posInf => true
  | .finite q => decide (0 < q)
  | _ => false

/-- JS `Math.round`: for a finite argument, the nearest integer with halves
rounded toward positive infinity; NaN and the infinities map to themselves. -/
def jsRound : JSNum → JSNum
  | .nan => .nan
  | .posInf => .posInf
  | .negInf => .negInf
  | .finite q => .finite ((⌊q + 1/2⌋ : ℤ) : ℚ)

/-- One entry of the `scenarioOptions` table (bootstrap.ts lines 92-98):
a vus count and a duration string. -/
structure Profile where
  vus : JSNum
  duration : String
deriving DecidableEq

/-- The `scenarioOptions` table of bootstrap.ts lines 92-98. -/
def scenarioOptions : String → Option Profile
  | "SMOKE" => some ⟨.finite 2, "30s"⟩
  | "STRESS" => some ⟨.finite 5, "1m"⟩
  | "SOAK" => some ⟨.finite 3, "2m"⟩
  | "SPIKE" => some ⟨.finite 10, "20s"⟩
  | "CUSTOM" => some ⟨.finite 20, "1m"⟩
  | _ => none

/-- The default CUSTOM profile before any override is applied. -/
def customProfileDefault : Profile := ⟨.finite 20, "1m"⟩

/-- bootstrap.ts lines 100-106: `customVusOverride` is the result of
`Number(__ENV.CUSTOM_VUS ?? '')` (so an absent variable arrives here as the
finite number 0); when it is not NaN and `> 0`, the CUSTOM vus entry is
replaced by `Math.round` of it. -/
def resolveCustomVus (override : JSNum) (p : Profile) : Profile :=
  if !override.isNaN && override.isPos then { p with vus := jsRound override } else p

/-- bootstrap.ts lines 126-140, `formatDurationSeconds`.  Its only call site
passes `Math.round` of a finite positive number, a natural number. -/
def formatDurationSeconds (totalSeconds : Nat) : String :=
  let safeSeconds := max 1 totalSeconds
  let minutes := safeSeconds / 60
  let seconds := safeSeconds % 60
  let parts : List String := []
  let parts := if 0 < minutes then parts ++ [toString minutes ++ "m"] else parts
  let parts := if 0 < seconds ∨ parts.length = 0 then parts ++ [toString seconds ++ "s"] else parts
  String.join parts

/-- bootstrap.ts lines 108-114 for a finite override value `q` (the result of
`Number(__ENV.CUSTOM_DURATION_SECONDS ?? '')` when that is a finite number):
the guard `!Number.isNaN(x) && x > 0` is then `0 < q`, and the CUSTOM duration
is replaced by `formatDurationSeconds(Math.round(q))`. -/
def resolveCustomDurationFinite (q : ℚ) (p : Profile) : Profile :=
  if 0 < q then { p with duration := formatDurationSeconds (⌊q + 1/2⌋).toNat } else p

/-- The duration format as the specification words it (for comparison with
`formatDurationSeconds`): render `r` as the minutes token followed by the
seconds token, omitting the minutes token when the minute count is 0 and the
seconds token exactly when the second count is 0 while the minute count is
positive. -/
def specFormatDuration (r : Nat) : String :=
  let minutes := r / 60
  let seconds := r % 60
  (if 0 < minutes then toString minutes ++ "m" else "")
    ++ (if seconds = 0 ∧ 0 < minutes then "" else toString seconds ++ "s")

/-- The thresholds object attached when enforcement is on
(bootstrap.ts lines 147-150). -/
structure Thresholds where
  http_req_failed : List String
  http_req_duration : List String
deriving DecidableEq

/-- The strict thresholds of bootstrap.ts lines 147-150. -/
def strictThresholds : Thresholds := ⟨["rate<0.05"], ["p(95)<3500"]⟩

/-- The exported `options` object (bootstrap.ts lines 142-153), reduced to the
fields it carries: the selected profile, the fixed `summaryTrendStats` list,
and an optional thresholds object (present exactly in the enforcing spread
branch). -/
structure K6Options where
  vus : JSNum
  duration : String
  summaryTrendStats : List String
  thresholds : Option Thresholds

/-- bootstrap.ts line 144. -/
def summaryTrendStatsList : List String :=
  ["avg", "min", "med", "max", "p(75)", "p(90)", "p(95)", "p(99)"]

/-- bootstrap.ts lines 142-153: build `options` from the resolved profile and
the `enforceThresholds` flag; the conditional spread attaches `thresholds`
only when the flag is true. -/
def mkOptions (enforce : Bool) (p : Profile) : K6Options :=
  { vus := p.vus
    duration := p.duration
    summaryTrendStats := summaryTrendStatsList
    thresholds := if enforce then some strictThresholds else none }

/-- bootstrap.ts line 117: `(__ENV.ENFORCE_THRESHOLDS ?? 'false').toLowerCase() === 'true'`. -/
def parseEnforceFlag (env : Option String) : Bool :=
  (env.getD "false").toLower == "true"

/-- bootstrap.ts lines 158-165: header resolution.  `parse` stands for the
external `JSON.parse` collaborator, returning `none` when it would throw.
The result pairs the resolved headers with whether the catch branch logged
its warning.  An env value that is set but empty is falsy in JS, so the
`if (__ENV.HTTP_HEADERS)` guard skips parsing for it. -/
def resolveHeaders (parse : String → Option (List (String × String)))
    (env : Option String) : List (String × String) × Bool :=
  match env with
  | none => ([], false)
  | some blob =>
    if blob = "" then ([], false)
    else
      match parse blob with
      | some h => (h, false)
      | none => ([], true)

/-- One captured error sample (bootstrap.ts `dataErrors` entries). -/
structure ErrorSample where
  status : Nat
  message : String
  url : String
deriving DecidableEq

/-- The module-level mutable aggregation state of bootstrap.ts: the
`statusCounts` record (as an insertion-ordered association list), the
`statusOrder` array, the three error `Counter`s, and the three `dataErrors`
sample buffers.  `pauses` counts the `sleep(1)` calls so that the pause on
every return path is observable in the model. -/
structure AggState where
  statusCounts : List (Nat × Nat)
  statusOrder : List Nat
  authErrorCount : Nat
  clientErrorCount : Nat
  serverErrorCount : Nat
  authSamples : List ErrorSample
  clientSamples : List ErrorSample
  serverSamples : List ErrorSample
  pauses : Nat
deriving DecidableEq

/-- The state at scenario load: empty maps, buffers and counters. -/
def initState : AggState := ⟨[], [], 0, 0, 0, [], [], [], 0⟩

/-- bootstrap.ts line 204: `statusCounts[s] = (statusCounts[s] ?? 0) + 1` on
the association-list view of the record. -/
def bumpStatusCount : List (Nat × Nat) → Nat → List (Nat × Nat)
  | [], s => [(s, 1)]
  | (k, c) :: rest, s =>
    if k = s then (k, c + 1) :: rest else (k, c) :: bumpStatusCount rest s

/-- The k6 response descriptor as bootstrap.ts reads it: the numeric status
and the `error` string (empty when there was no error). -/
structure Response where
  status : Nat
  error : String
deriving DecidableEq

/-- What the external transport does on one iteration: return a response, or
throw (carrying the optional `message` of the thrown value). -/
inductive TransportResult where
  | ok (resp : Response)
  | raise (msg : Option String)
deriving DecidableEq

/-- The three error buckets of `dataErrors`. -/
inductive Bucket where
  | auth
  | client
  | server
deriving DecidableEq

/-- bootstrap.ts lines 210-215: the bucket chosen for an error status
(only evaluated when `status == 0 || status >= 400`). -/
def classifyBucket (status : Nat) : Bucket :=
  if status = 401 ∨ status = 403 then .auth
  else if 500 ≤ status ∨ status = 0 then .server
  else .client

/-- bootstrap.ts line 220: `response.error || 'HTTP ' + status` (the empty
error string is falsy). -/
def respMessage (resp : Response) : String :=
  if resp.error = "" then "HTTP " ++ toString resp.status else resp.error

/-- Append a sample to a bucket buffer only while it holds fewer than 3
(bootstrap.ts lines 186 and 217). -/
def pushSample (samples : List ErrorSample) (s : ErrorSample) : List ErrorSample :=
  if samples.length < 3 then samples ++ [s] else samples

/-- Record one classified error: push the sample into the bucket buffer
(capped at 3) and bump the matching counter (bootstrap.ts lines 185-194 and
216-231). -/
def recordError (st : AggState) (bucket : Bucket) (sample : ErrorSample) : AggState :=
  match bucket with
  | .auth =>
    { st with authSamples := pushSample st.authSamples sample
              authErrorCount := st.authErrorCount + 1 }
  | .client =>
    { st with clientSamples := pushSample st.clientSamples sample
              clientErrorCount := st.clientErrorCount + 1 }
  | .server =>
    { st with serverSamples := pushSample st.serverSamples sample
              serverErrorCount := st.serverErrorCount + 1 }

/-- The check name registered by bootstrap.ts line 200. -/
def statusCheckName : String := "status is < 400"

/-- The check predicate of bootstrap.ts line 200:
`res.status !== 0 && res.status < 400`. -/
def statusCheck (status : Nat) : Bool :=
  (status != 0) && decide (status < 400)

/-- bootstrap.ts lines 172-235, the per-iteration entry point `runScenario`
of the extended script, as a state transformer.  `targetUrl` is the module
constant (`__ENV.TARGET_URL ?? __ENV.API_BASE_URL`); an absent or empty url
is falsy, so the iteration skips.  `transport` is what `http.request` does on
this iteration. -/
def runScenario (targetUrl : Option String) (transport : TransportResult)
    (st : AggState) : AggState :=
  match targetUrl with
  | none => { st with pauses := st.pauses + 1 }
  | some url =>
    if url = "" then { st with pauses := st.pauses + 1 }
    else
      match transport with
      | .raise msg =>
        let st := recordError st .server ⟨0, msg.getD "request threw", url⟩
        { st with pauses := st.pauses + 1 }
      | .ok resp =>
        let st :=
          { st with
            statusCounts := bumpStatusCount st.statusCounts resp.status
            statusOrder :=
              if resp.status ∈ st.statusOrder then st.statusOrder
              else st.statusOrder ++ [resp.status] }
        let st :=
          if resp.status = 0 ∨ 400 ≤ resp.status then
            recordError st (classifyBucket resp.status) ⟨resp.status, respMessage resp, url⟩
          else st
        { st with pauses := st.pauses + 1 }

/-- A whole run: fold `runScenario` over the per-iteration transport
outcomes. -/
def runAll (targetUrl : Option String) (ts : List TransportResult)
    (st : AggState) : AggState :=
  ts.foldl (fun s t => runScenario targetUrl t s) st

/-- The sum of all occurrence counts in `statusCounts`. -/
def sumStatusCounts (l : List (Nat × Nat)) : Nat :=
  (l.map Prod.snd).sum

/-- Whether a transport outcome is a thrown exception. -/
def isRaise : TransportResult → Bool
  | .raise _ => true
  | .ok _ => false

/-- Whether the configured target url is truthy (set and non-empty), i.e.
whether iterations perform a transport call at all. -/
def targetPresent : Option String → Bool
  | none => false
  | some url => !(url == "")

/-- The number of iterations of a run whose transport call raised: when no
target is configured no call is ever made, so no iteration can raise. -/
def transportFailureCount (targetUrl : Option String)
    (ts : List TransportResult) : Nat :=
  if targetPresent targetUrl then (ts.filter isRaise).length else 0

/-- All three `dataErrors` buffers hold at most 3 samples. -/
def samplesBounded (st : AggState) : Prop :=
  st.authSamples.length ≤ 3 ∧ st.clientSamples.length ≤ 3 ∧ st.serverSamples.length ≤ 3

/-!
The `handleSummary` reporter (bootstrap.ts lines 246-367), reduced to the
pieces the verified properties touch: the Errors section with its
no-samples diagnostic line, and the Checks line.  The numeric field values
of `data.metrics` arrive as optional rationals (k6 passes an untyped
object; a missing field is `none`).
-/

/-- The inputs `handleSummary` reads for the Errors section and the Checks
line: the failed-request rate and request counters of `data.metrics`
(collapsed from the `rate ?? values?.rate` fallbacks of lines 265-273) plus
the module-level `dataErrors` buffers. -/
structure SummaryInput where
  rateFailed : Option ℚ
  httpReqsCount : Option ℚ
  httpReqsRate : Option ℚ
  authErrors : List ErrorSample
  clientErrors : List ErrorSample
  serverErrors : List ErrorSample

/-- Two-digit rendering of a remainder below 100. -/
def pad2 (n : Nat) : String :=
  if n < 10 then "0" ++ toString n else toString n

/-- JS `value.toFixed(2)` on the idealised rational value: round to two
decimal places (halves up) and render with exactly two decimals. -/
def toFixed2 (q : ℚ) : String :=
  let scaled : ℤ := ⌊q * 100 + 1/2⌋
  (if scaled < 0 then "-" else "")
    ++ toString (scaled.natAbs / 100) ++ "." ++ pad2 (scaled.natAbs % 100)

/-- bootstrap.ts lines 259-260, `fmtPct`. -/
def fmtPct : Option ℚ → String
  | some v => toFixed2 (v * 100) ++ "%"
  | none => "n/a"

/-- bootstrap.ts line 261, `fmtMs`. -/
def fmtMs : Option ℚ → String
  | some v => toFixed2 v ++ " ms"
  | none => "n/a"

/-- bootstrap.ts line 262, `fmtCount`.  `toLocaleString` is locale dependent
(an external facility); it is modelled as a plain decimal rendering. -/
def fmtCount : Option ℚ → String
  | some v => toString v
  | none => "n/a"

/-- bootstrap.ts line 263, `fmtRate`. -/
def fmtRate : Option ℚ → String
  | some v => toFixed2 v ++ "/s"
  | none => "n/a"

/-- bootstrap.ts line 283, the green or red ANSI prefix. -/
def ansiColor (ok : Bool) : String :=
  if ok then "\u001b[32m" else "\u001b[31m"

/-- bootstrap.ts line 284. -/
def ansiReset : String := "\u001b[0m"

/-- bootstrap.ts line 274: `Math.max(0, 1 - rateFailed)` when the rate is a
number, `undefined` otherwise. -/
def successRate (rateFailed : Option ℚ) : Option ℚ :=
  rateFailed.map (fun v => max 0 (1 - v))

/-- The per-bucket line of the Errors section (bootstrap.ts lines 291-299):
count plus first sample when the buffer is non-empty, `none` otherwise. -/
def bucketLine (label : String) (samples : List ErrorSample) : String :=
  match samples with
  | [] => "- " ++ label ++ " errors: none"
  | e :: _ =>
    ("- " ++ label ++ " errors: ")
      ++ (toString samples.length
        ++ (" (example status=" ++ (toString e.status
          ++ (" url=" ++ (e.url ++ (" msg=" ++ (e.message ++ ")")))))))

/-- The diagnostic appended by bootstrap.ts line 341. -/
def noSamplesDiagnostic : String :=
  "- Failures detected but no error samples captured. Check connectivity/auth."

/-- The Errors section lines before the conditional diagnostic
(bootstrap.ts lines 286-300). -/
def errorsSectionBase (inp : SummaryInput) : List String :=
  [ ansiColor (decide (inp.rateFailed.getD 0 < 1/20)) ++ ("Errors" ++ ansiReset),
    "- Requests: "
      ++ (fmtCount inp.httpReqsCount ++ (" (" ++ (fmtRate inp.httpReqsRate ++ ")"))),
    "- Failed rate: " ++ fmtPct inp.rateFailed,
    "- Success rate: " ++ fmtPct (successRate inp.rateFailed),
    bucketLine "Auth" inp.authErrors,
    bucketLine "Client" inp.clientErrors,
    bucketLine "Server" inp.serverErrors ]

/-- The full Errors section: bootstrap.ts lines 340-342 push the diagnostic
exactly when `(rateFailed ?? 0) > 0` and all three sample buffers are
empty. -/
def errorsSection (inp : SummaryInput) : List String :=
  if 0 < inp.rateFailed.getD 0
      ∧ inp.authErrors.length + inp.clientErrors.length + inp.serverErrors.length = 0
  then errorsSectionBase inp ++ [noSamplesDiagnostic]
  else errorsSectionBase inp

/-- The Checks line of the summary (bootstrap.ts lines 352-355), rendered
from the pass and fail counts of `data.metrics.checks`. -/
def checksLine (passes fails : Option ℚ) : String :=
  "- status < 500: " ++ ("passes=" ++ (fmtCount passes ++ (" fails=" ++ fmtCount fails)))

/-! ### Helper lemmas -/

lemma string_empty_append (s : String) : "" ++ s = s := by
  cases s
  rfl

lemma string_append_empty (s : String) : s ++ "" = s := by
  cases s
  simp [String.append]

/-- `formatDurationSeconds` renders exactly the specification format of the
clamped value `max 1 totalSeconds`. -/
lemma formatDuration_eq_specFormat (n : Nat) :
    formatDurationSeconds n = specFormatDuration (max 1 n) := by
  simp only [formatDurationSeconds, specFormatDuration]
  by_cases h1 : 0 < max 1 n / 60
  · rw [if_pos h1, if_pos h1]
    by_cases h2 : 0 < max 1 n % 60
    · rw [if_pos (Or.inl h2), if_neg (by omega)]
      simp [String.join, string_empty_append]
    · have h2z : max 1 n % 60 = 0 := by omega
      rw [if_neg (by simp [h2z]), if_pos ⟨h2z, h1⟩]
      simp [String.join, string_empty_append, string_append_empty]
  · rw [if_neg h1, if_neg h1]
    rw [if_pos (show 0 < (1 ⊔ n) % 60 ∨ ([] : List String).length = 0 from Or.inr rfl),
      if_neg (fun hc => h1 hc.2)]
    simp [String.join, string_empty_append]

/-! ### C5: thresholds are attached exactly when enforcement is enabled -/

/-- C5: the resolved run configuration carries thresholds exactly when
threshold enforcement is enabled: with the flag on, `options.thresholds` is
the strict pair `http_req_failed: rate<0.05`, `http_req_duration:
p(95)<3500`; with the flag off, no thresholds field is attached at all. -/
theorem C5_thresholds_iff_enforced :
    ∀ (p : Profile) (b : Bool),
      ((mkOptions b p).thresholds = some strictThresholds ↔ b = true) ∧
      ((mkOptions b p).thresholds = none ↔ b = false) ∧
      strictThresholds.http_req_failed = ["rate<0.05"] ∧
      strictThresholds.http_req_duration = ["p(95)<3500"] := by
  intro p b
  refine ⟨?_, ?_, rfl, rfl⟩ <;> cases b <;> simp [mkOptions, strictThresholds]

/-! ### C6: the CUSTOM vus override -/

/-- C6 counterexample: the claim says every non-finite override leaves the
CUSTOM concurrency at its default of 20, but the code only rejects NaN and
non-positive values: the override `Infinity` (e.g. `CUSTOM_VUS=Infinity`,
which `Number` converts to positive infinity) passes the
`!Number.isNaN(x) && x > 0` guard and `Math.round(Infinity)` replaces the
concurrency with infinity, not 20. -/
theorem C6_cex_infinite_override :
    (resolveCustomVus JSNum.posInf customProfileDefault).vus = JSNum.posInf ∧
      (resolveCustomVus JSNum.posInf customProfileDefault).vus ≠ JSNum.finite 20 := by
  refine ⟨rfl, ?_⟩
  intro h
  exact JSNum.noConfusion h

/-- C6 (amended): for mode CUSTOM the resolved concurrency is
`round(overrides.vus)` whenever the override is a positive non-NaN number --
a finite positive value gives its half-up rounding (so `CUSTOM_VUS=7.6`
resolves to 8) and positive infinity is accepted as is -- while an absent
(which `Number` turns into 0), NaN, non-positive or negative-infinite
override silently leaves the CUSTOM default of 20. -/
theorem C6_vus_override_resolution :
    ∀ q : ℚ,
      (0 < q →
        (resolveCustomVus (JSNum.finite q) customProfileDefault).vus
          = JSNum.finite ((⌊q + 1/2⌋ : ℤ) : ℚ)) ∧
      (q ≤ 0 →
        (resolveCustomVus (JSNum.finite q) customProfileDefault).vus = JSNum.finite 20) ∧
      (resolveCustomVus JSNum.nan customProfileDefault).vus = JSNum.finite 20 ∧
      (resolveCustomVus JSNum.negInf customProfileDefault).vus = JSNum.finite 20 ∧
      (resolveCustomVus JSNum.posInf customProfileDefault).vus = JSNum.posInf ∧
      (resolveCustomVus (JSNum.finite (76/10)) customProfileDefault).vus = JSNum.finite 8 := by
  intro q
  refine ⟨?_, ?_, rfl, rfl, rfl, ?_⟩
  · intro h
    simp [resolveCustomVus, JSNum.isNaN, JSNum.isPos, jsRound, h]
  · intro h
    simp [resolveCustomVus, JSNum.isNaN, JSNum.isPos, not_lt.mpr h, customProfileDefault]
  · have hguard : (!(JSNum.finite (76/10)).isNaN && (JSNum.finite (76/10)).isPos) = true := by
      norm_num [JSNum.isNaN, JSNum.isPos]
    unfold resolveCustomVus
    rw [if_pos hguard]
    show JSNum.finite ((⌊(76/10 : ℚ) + 1/2⌋ : ℤ) : ℚ) = JSNum.finite 8
    have hfl : ⌊(76/10 : ℚ) + 1/2⌋ = 8 := by norm_num [Int.floor_eq_iff]
    rw [hfl]
    norm_num

/-- C6 witness: the amended theorem applied at the concrete override 7.6. -/
theorem C6_vus_override_witness :
    (0 < (76/10 : ℚ)) ∧
      (resolveCustomVus (JSNum.finite (76/10)) customProfileDefault).vus = JSNum.finite 8 :=
  ⟨by norm_num, (C6_vus_override_resolution (76/10)).2.2.2.2.2⟩

/-! ### C7: the CUSTOM duration override -/

/-- C7 counterexample: the claim says a finite positive override of `s`
seconds is rendered as the `\x7bm\x7dm\x7bs\x7ds` format of `round(s)`, but for
`s = 0.3` the code formats `Math.max(1, round(s)) = 1` and yields `1s`,
while the claimed format of `round(0.3) = 0` is `0s`. -/
theorem C7_cex_subhalf_override :
    (resolveCustomDurationFinite (3/10) customProfileDefault).duration = "1s" ∧
      specFormatDuration (⌊(3/10 : ℚ) + 1/2⌋).toNat = "0s" ∧
      (resolveCustomDurationFinite (3/10) customProfileDefault).duration
        ≠ specFormatDuration (⌊(3/10 : ℚ) + 1/2⌋).toNat := by
  have hpos : (0:ℚ) < 3/10 := by norm_num
  have hfl : ⌊(3/10 : ℚ) + 1/2⌋ = 0 := by norm_num [Int.floor_eq_iff]
  have h1 : (resolveCustomDurationFinite (3/10) customProfileDefault).duration = "1s" := by
    unfold resolveCustomDurationFinite
    rw [if_pos hpos]
    show formatDurationSeconds (⌊(3/10 : ℚ) + 1/2⌋).toNat = "1s"
    rw [hfl]
    decide
  have h2 : specFormatDuration (⌊(3/10 : ℚ) + 1/2⌋).toNat = "0s" := by
    rw [hfl]
    decide
  refine ⟨h1, h2, ?_⟩
  rw [h1, h2]
  decide

/-- C7 (amended): for mode CUSTOM with a finite positive duration override of
`s` seconds, the resolved duration string formats `max(1, round(s))` (the
code clamps the rounded value to at least one second) as `\x7bm\x7dm\x7bs\x7ds`
with the minutes token omitted when the minute count is 0 and the seconds
token omitted exactly when the second count is 0 while the minute count is
positive; concretely 125 yields `2m5s`, 60 yields `1m`, 45 yields `45s`. -/
theorem C7_duration_override_resolution :
    (∀ n : Nat, formatDurationSeconds n = specFormatDuration (max 1 n)) ∧
      (∀ q : ℚ, 0 < q →
        (resolveCustomDurationFinite q customProfileDefault).duration
          = specFormatDuration (max 1 (⌊q + 1/2⌋).toNat)) ∧
      (resolveCustomDurationFinite 125 customProfileDefault).duration = "2m5s" ∧
      (resolveCustomDurationFinite 60 customProfileDefault).duration = "1m" ∧
      (resolveCustomDurationFinite 45 customProfileDefault).duration = "45s" := by
  refine ⟨formatDuration_eq_specFormat, ?_, ?_, ?_, ?_⟩
  · intro q h
    unfold resolveCustomDurationFinite
    rw [if_pos h]
    show formatDurationSeconds (⌊q + 1/2⌋).toNat = _
    exact formatDuration_eq_specFormat _
  · have hfl : ⌊(125 : ℚ) + 1/2⌋ = 125 := by norm_num [Int.floor_eq_iff]
    unfold resolveCustomDurationFinite
    rw [if_pos (show (0:ℚ) < 125 by norm_num)]
    show formatDurationSeconds (⌊(125 : ℚ) + 1/2⌋).toNat = "2m5s"
    rw [hfl]
    decide
  · have hfl : ⌊(60 : ℚ) + 1/2⌋ = 60 := by norm_num [Int.floor_eq_iff]
    unfold resolveCustomDurationFinite
    rw [if_pos (show (0:ℚ) < 60 by norm_num)]
    show formatDurationSeconds (⌊(60 : ℚ) + 1/2⌋).toNat = "1m"
    rw [hfl]
    decide
  · have hfl : ⌊(45 : ℚ) + 1/2⌋ = 45 := by norm_num [Int.floor_eq_iff]
    unfold resolveCustomDurationFinite
    rw [if_pos (show (0:ℚ) < 45 by norm_num)]
    show formatDurationSeconds (⌊(45 : ℚ) + 1/2⌋).toNat = "45s"
    rw [hfl]
    decide

/-- C7 witness: the amended theorem applied at the concrete override 125. -/
theorem C7_duration_override_witness :
    (0 < (125:ℚ)) ∧
      (resolveCustomDurationFinite 125 customProfileDefault).duration = "2m5s" :=
  ⟨by norm_num, (C7_duration_override_resolution).2.2.1⟩

/-! ### C8: malformed HTTP_HEADERS -/

/-- C8 counterexample: the claim covers every present unparseable blob, but a
set-but-empty `HTTP_HEADERS` is falsy, so the `if (__ENV.HTTP_HEADERS)` guard
skips parsing entirely: headers fall back to empty with NO warning logged,
even though the empty string does not parse as a key-value mapping (the
`parse` collaborator here rejects every blob, as `JSON.parse` rejects the
empty string). -/
theorem C8_cex_empty_blob :
    resolveHeaders (fun _ => none) (some "") = ([], false) := rfl

/-- C8 (amended): for every present NON-EMPTY headers blob that fails to
parse as a key-value mapping, header resolution yields the empty mapping and
logs the warning, and never throws (the resolver is a total function whose
catch branch recovers locally); an absent variable yields empty headers
without a warning.  `parse` stands for the external `JSON.parse`. -/
theorem C8_headers_fallback
    (parse : String → Option (List (String × String))) (blob : String)
    (hb : blob ≠ "") (hp : parse blob = none) :
    resolveHeaders parse (some blob) = ([], true) ∧
      resolveHeaders parse none = ([], false) := by
  constructor
  · simp [resolveHeaders, hb, hp]
  · rfl

/-- C8 witness: the amended theorem at the blob `\x7bnot json` with a parse
collaborator that rejects it. -/
theorem C8_headers_fallback_witness :
    ("\x7bnot json" ≠ "") ∧
      resolveHeaders (fun _ => none) (some "\x7bnot json") = ([], true) :=
  ⟨by decide, (C8_headers_fallback (fun _ => none) "\x7bnot json" (by decide) rfl).1⟩

/-! ### Step lemmas about `runScenario` -/

lemma recordError_statusCounts (st : AggState) (b : Bucket) (s : ErrorSample) :
    (recordError st b s).statusCounts = st.statusCounts := by
  cases b <;> rfl

lemma recordError_statusOrder (st : AggState) (b : Bucket) (s : ErrorSample) :
    (recordError st b s).statusOrder = st.statusOrder := by
  cases b <;> rfl

lemma sumStatusCounts_bump (l : List (Nat × Nat)) (s : Nat) :
    sumStatusCounts (bumpStatusCount l s) = sumStatusCounts l + 1 := by
  induction l with
  | nil => rfl
  | cons kv rest ih =>
    obtain ⟨k, c⟩ := kv
    by_cases hk : k = s
    · simp [bumpStatusCount, hk, sumStatusCounts]
      omega
    · simp [bumpStatusCount, hk, sumStatusCounts] at ih ⊢
      omega

/-- Per-iteration effect on the `statusCounts` total: a returned response
adds exactly one occurrence, a raised transport call adds none. -/
lemma runScenario_statusCounts_sum (url : String) (h : url ≠ "")
    (tr : TransportResult) (st : AggState) :
    sumStatusCounts (runScenario (some url) tr st).statusCounts
      = sumStatusCounts st.statusCounts + (if isRaise tr then 0 else 1) := by
  cases tr with
  | raise m => simp [runScenario, h, recordError, isRaise]
  | ok resp =>
    simp only [runScenario, h, if_neg h, isRaise, if_false]
    by_cases hc : resp.status = 0 ∨ 400 ≤ resp.status
    · rw [if_pos hc, recordError_statusCounts]
      simp [sumStatusCounts_bump]
    · rw [if_neg hc]
      simp [sumStatusCounts_bump]

lemma runAll_statusCounts_sum (url : String) (h : url ≠ "") :
    ∀ (ts : List TransportResult) (st : AggState),
      sumStatusCounts (runAll (some url) ts st).statusCounts
        = sumStatusCounts st.statusCounts + (ts.filter (fun t => !isRaise t)).length := by
  intro ts
  induction ts with
  | nil =>
    intro st
    simp [runAll]
  | cons t rest ih =>
    intro st
    simp only [runAll, List.foldl_cons] at ih ⊢
    rw [ih, runScenario_statusCounts_sum url h t st]
    cases htr : isRaise t <;> (simp [List.filter_cons, htr]; try omega)

lemma filter_raise_split (ts : List TransportResult) :
    (ts.filter (fun t => !isRaise t)).length + (ts.filter isRaise).length = ts.length := by
  induction ts with
  | nil => rfl
  | cons t rest ih => cases htr : isRaise t <;> simp [List.filter_cons, htr] <;> omega

/-! ### C1: the statusCounts / transport-failure accounting invariant -/

/-- C1 counterexample: the claim quantifies over EVERY sequence of
invocations, but when no target url is configured an invocation skips
without a transport call: after one such invocation the statusCounts total
plus the transport-failure count is 0, not 1. -/
theorem C1_cex_no_target :
    ¬ (sumStatusCounts (runAll none [TransportResult.ok ⟨200, ""⟩] initState).statusCounts
        + transportFailureCount none [TransportResult.ok ⟨200, ""⟩] = 1) := by
  decide

/-- C1 (amended): for every sequence of N invocations of `runScenario` with
a configured (non-empty) target url, the sum of all `statusCounts` values
plus the number of invocations whose transport call raised equals N:
every returned response adds exactly one occurrence to `statusCounts` and a
raised transport call adds none. -/
theorem C1_statusCounts_invariant (url : String) (h : url ≠ "")
    (ts : List TransportResult) :
    sumStatusCounts (runAll (some url) ts initState).statusCounts
        + transportFailureCount (some url) ts = ts.length ∧
      (∀ (st : AggState) (resp : Response),
        sumStatusCounts (runScenario (some url) (.ok resp) st).statusCounts
          = sumStatusCounts st.statusCounts + 1) ∧
      (∀ (st : AggState) (msg : Option String),
        (runScenario (some url) (.raise msg) st).statusCounts = st.statusCounts) := by
  refine ⟨?_, ?_, ?_⟩
  · rw [runAll_statusCounts_sum url h ts initState]
    have hp : targetPresent (some url) = true := by
      simp [targetPresent, h]
    simp only [transportFailureCount, hp, if_true]
    have := filter_raise_split ts
    simp [initState, sumStatusCounts]
    omega
  · intro st resp
    have := runScenario_statusCounts_sum url h (.ok resp) st
    simpa [isRaise] using this
  · intro st msg
    simp [runScenario, h, recordError]

/-- C1 witness: the amended invariant over a concrete three-iteration run
(one success, one transport failure, one error status). -/
theorem C1_statusCounts_invariant_witness :
    ("u" ≠ "") ∧
      sumStatusCounts (runAll (some "u")
          [TransportResult.ok ⟨200, ""⟩, TransportResult.raise none,
            TransportResult.ok ⟨503, "boom"⟩] initState).statusCounts
        + transportFailureCount (some "u")
          [TransportResult.ok ⟨200, ""⟩, TransportResult.raise none,
            TransportResult.ok ⟨503, "boom"⟩] = 3 :=
  ⟨by decide,
    (C1_statusCounts_invariant "u" (by decide)
      [TransportResult.ok ⟨200, ""⟩, TransportResult.raise none,
        TransportResult.ok ⟨503, "boom"⟩]).1⟩

/-! ### C2: the error-status classification precedence -/

/-- C2: every response with `status == 0` or `status >= 400` is classified
into exactly one bucket by the precedence 401/403 to auth, else `>= 500` or
`== 0` to server, else 4xx to client, and exactly the matching counter is
incremented by 1; a response with `0 < status < 400` touches no bucket and
no error counter; a raised transport call is always counted as server. -/
theorem C2_classification (url : String) (resp : Response) (st : AggState)
    (h : url ≠ "") :
    ((resp.status = 401 ∨ resp.status = 403) →
      (runScenario (some url) (.ok resp) st).authErrorCount = st.authErrorCount + 1 ∧
      (runScenario (some url) (.ok resp) st).clientErrorCount = st.clientErrorCount ∧
      (runScenario (some url) (.ok resp) st).serverErrorCount = st.serverErrorCount) ∧
    ((resp.status ≠ 401 ∧ resp.status ≠ 403 ∧ (500 ≤ resp.status ∨ resp.status = 0)) →
      (runScenario (some url) (.ok resp) st).serverErrorCount = st.serverErrorCount + 1 ∧
      (runScenario (some url) (.ok resp) st).authErrorCount = st.authErrorCount ∧
      (runScenario (some url) (.ok resp) st).clientErrorCount = st.clientErrorCount) ∧
    ((400 ≤ resp.status ∧ resp.status < 500 ∧ resp.status ≠ 401 ∧ resp.status ≠ 403) →
      (runScenario (some url) (.ok resp) st).clientErrorCount = st.clientErrorCount + 1 ∧
      (runScenario (some url) (.ok resp) st).authErrorCount = st.authErrorCount ∧
      (runScenario (some url) (.ok resp) st).serverErrorCount = st.serverErrorCount) ∧
    ((0 < resp.status ∧ resp.status < 400) →
      (runScenario (some url) (.ok resp) st).authErrorCount = st.authErrorCount ∧
      (runScenario (some url) (.ok resp) st).clientErrorCount = st.clientErrorCount ∧
      (runScenario (some url) (.ok resp) st).serverErrorCount = st.serverErrorCount ∧
      (runScenario (some url) (.ok resp) st).authSamples = st.authSamples ∧
      (runScenario (some url) (.ok resp) st).clientSamples = st.clientSamples ∧
      (runScenario (some url) (.ok resp) st).serverSamples = st.serverSamples) ∧
    (∀ msg : Option String,
      (runScenario (some url) (.raise msg) st).serverErrorCount = st.serverErrorCount + 1) := by
  refine ⟨?_, ?_, ?_, ?_, ?_⟩
  · intro hs
    have hcls : resp.status = 0 ∨ 400 ≤ resp.status := by omega
    have hb : classifyBucket resp.status = Bucket.auth := by
      unfold classifyBucket
      rw [if_pos hs]
    simp only [runScenario, if_neg h, if_pos hcls, hb]
    simp [recordError]
  · intro hs
    have hcls : resp.status = 0 ∨ 400 ≤ resp.status := by omega
    have hb : classifyBucket resp.status = Bucket.server := by
      unfold classifyBucket
      rw [if_neg (by tauto), if_pos hs.2.2]
    simp only [runScenario, if_neg h, if_pos hcls, hb]
    simp [recordError]
  · intro hs
    have hcls : resp.status = 0 ∨ 400 ≤ resp.status := by omega
    have hb : classifyBucket resp.status = Bucket.client := by
      unfold classifyBucket
      rw [if_neg (by tauto), if_neg (by omega)]
    simp only [runScenario, if_neg h, if_pos hcls, hb]
    simp [recordError]
  · intro hs
    have hcls : ¬ (resp.status = 0 ∨ 400 ≤ resp.status) := by omega
    simp only [runScenario, if_neg h, if_neg hcls]
    simp
  · intro msg
    simp [runScenario, h, recordError]

/-- C2 witness: a 403 response increments exactly the auth counter. -/
theorem C2_classification_witness :
    ("u" ≠ "") ∧
      (runScenario (some "u") (TransportResult.ok ⟨403, ""⟩) initState).authErrorCount = 1 ∧
      (runScenario (some "u") (TransportResult.ok ⟨403, ""⟩) initState).clientErrorCount = 0 ∧
      (runScenario (some "u") (TransportResult.ok ⟨403, ""⟩) initState).serverErrorCount = 0 := by
  have hc := (C2_classification "u" ⟨403, ""⟩ initState (by decide)).1 (Or.inr rfl)
  exact ⟨by decide, by simpa [initState] using hc.1, hc.2.1, hc.2.2⟩

/-! ### C3: a transport exception is recovered and counted as server -/

/-- C3: when the transport call raises, the iteration increments only
`serverErrorCount`, appends one server sample with status 0, the failure
message and the target url (only while the buffer holds fewer than 3),
leaves `statusCounts` and `statusOrder` completely unchanged, pauses, and
returns (the model is a total state transformer: nothing propagates). -/
theorem C3_transport_failure (url : String) (msg : Option String)
    (st : AggState) (h : url ≠ "") :
    (runScenario (some url) (.raise msg) st).serverErrorCount = st.serverErrorCount + 1 ∧
      (runScenario (some url) (.raise msg) st).statusCounts = st.statusCounts ∧
      (runScenario (some url) (.raise msg) st).statusOrder = st.statusOrder ∧
      (runScenario (some url) (.raise msg) st).authErrorCount = st.authErrorCount ∧
      (runScenario (some url) (.raise msg) st).clientErrorCount = st.clientErrorCount ∧
      (runScenario (some url) (.raise msg) st).authSamples = st.authSamples ∧
      (runScenario (some url) (.raise msg) st).clientSamples = st.clientSamples ∧
      (st.serverSamples.length < 3 →
        (runScenario (some url) (.raise msg) st).serverSamples
          = st.serverSamples ++ [⟨0, msg.getD "request threw", url⟩]) ∧
      (¬ st.serverSamples.length < 3 →
        (runScenario (some url) (.raise msg) st).serverSamples = st.serverSamples) ∧
      (runScenario (some url) (.raise msg) st).pauses = st.pauses + 1 := by
  refine ⟨?_, ?_, ?_, ?_, ?_, ?_, ?_, ?_, ?_, ?_⟩ <;>
    simp [runScenario, h, recordError]
  · intro hl
    simp [pushSample, hl]
  · intro hl
    simp [pushSample, hl]

/-- C3 witness: one raising iteration against an empty server buffer. -/
theorem C3_transport_failure_witness :
    ("u" ≠ "") ∧
      (runScenario (some "u") (TransportResult.raise (some "boom")) initState).serverErrorCount = 1 ∧
      (runScenario (some "u") (TransportResult.raise (some "boom")) initState).statusCounts = [] ∧
      (runScenario (some "u") (TransportResult.raise (some "boom")) initState).serverSamples
        = [⟨0, "boom", "u"⟩] := by
  have hc := C3_transport_failure "u" (some "boom") initState (by decide)
  refine ⟨by decide, by simpa [initState] using hc.1, by simpa [initState] using hc.2.1, ?_⟩
  have h8 := hc.2.2.2.2.2.2.2.1 (by simp [initState])
  simpa [initState] using h8

/-! ### C4: bucket buffers are capped at 3, append-only, and 403 counting -/

lemma pushSample_length_le (l : List ErrorSample) (s : ErrorSample)
    (h : l.length ≤ 3) : (pushSample l s).length ≤ 3 := by
  unfold pushSample
  split_ifs with hl
  · simp
    omega
  · exact h

lemma pushSample_extend (l : List ErrorSample) (s : ErrorSample) :
    pushSample l s = l ∨ ∃ x, pushSample l s = l ++ [x] := by
  unfold pushSample
  split_ifs
  · exact Or.inr ⟨s, rfl⟩
  · exact Or.inl rfl

lemma recordError_samplesBounded (st : AggState) (b : Bucket) (s : ErrorSample)
    (h : samplesBounded st) : samplesBounded (recordError st b s) := by
  obtain ⟨h1, h2, h3⟩ := h
  cases b <;>
    exact ⟨by simp [recordError, pushSample_length_le, h1, h2, h3],
      by simp [recordError, pushSample_length_le, h1, h2, h3],
      by simp [recordError, pushSample_length_le, h1, h2, h3]⟩

lemma runScenario_samplesBounded (targetUrl : Option String)
    (tr : TransportResult) (st : AggState) (h : samplesBounded st) :
    samplesBounded (runScenario targetUrl tr st) := by
  obtain ⟨h1, h2, h3⟩ := h
  cases targetUrl with
  | none => exact ⟨h1, h2, h3⟩
  | some url =>
    by_cases hu : url = ""
    · simp only [runScenario, if_pos hu]
      exact ⟨h1, h2, h3⟩
    · cases tr with
      | raise msg =>
        simp only [runScenario, if_neg hu]
        exact recordError_samplesBounded _ Bucket.server _ ⟨h1, h2, h3⟩
      | ok resp =>
        simp only [runScenario, if_neg hu]
        by_cases hc : resp.status = 0 ∨ 400 ≤ resp.status
        · rw [if_pos hc]
          exact recordError_samplesBounded _ _ _ ⟨h1, h2, h3⟩
        · rw [if_neg hc]
          exact ⟨h1, h2, h3⟩

lemma runAll_samplesBounded (targetUrl : Option String) :
    ∀ (ts : List TransportResult) (st : AggState), samplesBounded st →
      samplesBounded (runAll targetUrl ts st) := by
  intro ts
  induction ts with
  | nil => exact fun st h => h
  | cons t rest ih =>
    intro st h
    simp only [runAll, List.foldl_cons] at ih ⊢
    exact ih _ (runScenario_samplesBounded targetUrl t st h)

lemma recordError_samples_extend (st : AggState) (b : Bucket) (s : ErrorSample) :
    ((recordError st b s).authSamples = st.authSamples ∨
      ∃ x, (recordError st b s).authSamples = st.authSamples ++ [x]) ∧
    ((recordError st b s).clientSamples = st.clientSamples ∨
      ∃ x, (recordError st b s).clientSamples = st.clientSamples ++ [x]) ∧
    ((recordError st b s).serverSamples = st.serverSamples ∨
      ∃ x, (recordError st b s).serverSamples = st.serverSamples ++ [x]) := by
  cases b <;>
    exact ⟨by simp [recordError, pushSample_extend],
      by simp [recordError, pushSample_extend],
      by simp [recordError, pushSample_extend]⟩

lemma runScenario_samples_extend (targetUrl : Option String)
    (tr : TransportResult) (st : AggState) :
    ((runScenario targetUrl tr st).authSamples = st.authSamples ∨
      ∃ x, (runScenario targetUrl tr st).authSamples = st.authSamples ++ [x]) ∧
    ((runScenario targetUrl tr st).clientSamples = st.clientSamples ∨
      ∃ x, (runScenario targetUrl tr st).clientSamples = st.clientSamples ++ [x]) ∧
    ((runScenario targetUrl tr st).serverSamples = st.serverSamples ∨
      ∃ x, (runScenario targetUrl tr st).serverSamples = st.serverSamples ++ [x]) := by
  cases targetUrl with
  | none => exact ⟨Or.inl rfl, Or.inl rfl, Or.inl rfl⟩
  | some url =>
    by_cases hu : url = ""
    · simp [runScenario, hu]
    · cases tr with
      | raise msg =>
        simp only [runScenario, if_neg hu]
        exact recordError_samples_extend _ Bucket.server _
      | ok resp =>
        simp only [runScenario, if_neg hu]
        by_cases hc : resp.status = 0 ∨ 400 ≤ resp.status
        · rw [if_pos hc]
          exact recordError_samples_extend _ _ _
        · rw [if_neg hc]
          exact ⟨Or.inl rfl, Or.inl rfl, Or.inl rfl⟩

/-- The per-iteration effect of a 403 response on the auth bucket. -/
lemma runScenario_403 (url : String) (h : url ≠ "") (resp : Response)
    (hs : resp.status = 403) (st : AggState) :
    (runScenario (some url) (.ok resp) st).authErrorCount = st.authErrorCount + 1 ∧
      (runScenario (some url) (.ok resp) st).authSamples
        = pushSample st.authSamples ⟨403, respMessage resp, url⟩ := by
  have hcls : resp.status = 0 ∨ 400 ≤ resp.status := by omega
  have hb : classifyBucket resp.status = Bucket.auth := by
    unfold classifyBucket
    rw [if_pos (Or.inr hs)]
  simp only [runScenario, if_neg h, if_pos hcls, hb]
  simp [recordError, hs]

lemma runAll_replicate_403 (url : String) (h : url ≠ "") (resp : Response)
    (hs : resp.status = 403) :
    ∀ (n : Nat) (st : AggState), st.authSamples.length ≤ 3 →
      (runAll (some url) (List.replicate n (.ok resp)) st).authErrorCount
          = st.authErrorCount + n ∧
        (runAll (some url) (List.replicate n (.ok resp)) st).authSamples.length
          = min (st.authSamples.length + n) 3 := by
  intro n
  induction n with
  | zero =>
    intro st hb
    simp only [List.replicate_zero, runAll, List.foldl_nil]
    omega
  | succ n ih =>
    intro st hb
    rw [List.replicate_succ]
    simp only [runAll, List.foldl_cons] at ih ⊢
    have hstep := runScenario_403 url h resp hs st
    have hlen : (runScenario (some url) (.ok resp) st).authSamples.length
        = if st.authSamples.length < 3 then st.authSamples.length + 1
          else st.authSamples.length := by
      rw [hstep.2]
      unfold pushSample
      split_ifs <;> simp
    have hb2 : (runScenario (some url) (.ok resp) st).authSamples.length ≤ 3 := by
      rw [hlen]
      split_ifs <;> omega
    obtain ⟨ih1, ih2⟩ := ih (runScenario (some url) (.ok resp) st) hb2
    refine ⟨?_, ?_⟩
    · rw [ih1, hstep.1]
      omega
    · rw [ih2, hlen]
      split_ifs <;> omega

/-- C4: each of the three bucket buffers never exceeds 3 samples over any
run, every iteration either leaves a buffer unchanged or appends exactly one
sample at its end (first-come insertion order), and a 403 response always
increments `authErrorCount` while appending its sample only when the auth
buffer holds fewer than 3 — so N repeated 403 responses from a fresh state
leave the counter at N and the buffer at min N 3. -/
theorem C4_sample_cap (url : String) (resp : Response)
    (h : url ≠ "") (hs : resp.status = 403) :
    (∀ (tu : Option String) (ts : List TransportResult),
        samplesBounded (runAll tu ts initState)) ∧
      (∀ (tu : Option String) (tr : TransportResult) (st : AggState),
        ((runScenario tu tr st).authSamples = st.authSamples ∨
          ∃ x, (runScenario tu tr st).authSamples = st.authSamples ++ [x]) ∧
        ((runScenario tu tr st).clientSamples = st.clientSamples ∨
          ∃ x, (runScenario tu tr st).clientSamples = st.clientSamples ++ [x]) ∧
        ((runScenario tu tr st).serverSamples = st.serverSamples ∨
          ∃ x, (runScenario tu tr st).serverSamples = st.serverSamples ++ [x])) ∧
      (∀ st : AggState,
        (runScenario (some url) (.ok resp) st).authErrorCount = st.authErrorCount + 1 ∧
        (st.authSamples.length < 3 →
          (runScenario (some url) (.ok resp) st).authSamples
            = st.authSamples ++ [⟨403, respMessage resp, url⟩]) ∧
        (¬ st.authSamples.length < 3 →
          (runScenario (some url) (.ok resp) st).authSamples = st.authSamples)) ∧
      (∀ n : Nat,
        (runAll (some url) (List.replicate n (.ok resp)) initState).authErrorCount = n ∧
        (runAll (some url) (List.replicate n (.ok resp)) initState).authSamples.length
          = min n 3) := by
  refine ⟨?_, ?_, ?_, ?_⟩
  · intro tu ts
    exact runAll_samplesBounded tu ts initState (by simp [samplesBounded, initState])
  · intro tu tr st
    exact runScenario_samples_extend tu tr st
  · intro st
    have hstep := runScenario_403 url h resp hs st
    refine ⟨hstep.1, ?_, ?_⟩
    · intro hl
      rw [hstep.2]
      unfold pushSample
      rw [if_pos hl]
    · intro hl
      rw [hstep.2]
      unfold pushSample
      rw [if_neg hl]
  · intro n
    have := runAll_replicate_403 url h resp hs n initState (by simp [initState])
    simpa [initState] using this

/-- C4 witness: five repeated 403 responses leave the counter at 5 and the
auth buffer at its cap of 3. -/
theorem C4_sample_cap_witness :
    ("u" ≠ "") ∧ ((403:Nat) = 403) ∧
      (runAll (some "u") (List.replicate 5 (TransportResult.ok ⟨403, ""⟩))
          initState).authErrorCount = 5 ∧
      (runAll (some "u") (List.replicate 5 (TransportResult.ok ⟨403, ""⟩))
          initState).authSamples.length = 3 := by
  have h5 := (C4_sample_cap "u" ⟨403, ""⟩ (by decide) rfl).2.2.2 5
  exact ⟨by decide, rfl, h5.1, by rw [h5.2]; decide⟩

/-! ### String prefix helpers for the reporter sections -/

lemma take_data_append (p s : String) (n : Nat) (h : n ≤ p.data.length) :
    ((p ++ s).data).take n = p.data.take n := by
  rw [String.data_append, List.take_append_of_le_length h]

lemma append_ne_diag (p s : String) (h8 : 8 ≤ p.data.length)
    (hne : p.data.take 8 ≠ noSamplesDiagnostic.data.take 8) :
    p ++ s ≠ noSamplesDiagnostic := by
  intro he
  apply hne
  rw [← he, take_data_append p s 8 h8]

lemma ansi_header_ne_diag (b : Bool) :
    ansiColor b ++ ("Errors" ++ ansiReset) ≠ noSamplesDiagnostic := by
  cases b <;> decide

lemma bucketLine_ne_diag (label : String) (samples : List ErrorSample)
    (hnone : ("- " ++ label ++ " errors: none") ≠ noSamplesDiagnostic)
    (h8 : 8 ≤ ("- " ++ label ++ " errors: ").data.length)
    (hne : ("- " ++ label ++ " errors: ").data.take 8
      ≠ noSamplesDiagnostic.data.take 8) :
    bucketLine label samples ≠ noSamplesDiagnostic := by
  cases samples with
  | nil => exact hnone
  | cons e es => exact append_ne_diag _ _ h8 hne

/-- The diagnostic line is never one of the seven fixed lines of the Errors
section: each of those starts with a prefix the diagnostic does not have. -/
lemma diag_not_mem_base (inp : SummaryInput) :
    noSamplesDiagnostic ∉ errorsSectionBase inp := by
  intro hmem
  simp only [errorsSectionBase, List.mem_cons, List.not_mem_nil, or_false] at hmem
  rcases hmem with h | h | h | h | h | h | h
  · exact ansi_header_ne_diag _ h.symm
  · exact append_ne_diag "- Requests: " _ (by decide) (by decide) h.symm
  · exact append_ne_diag "- Failed rate: " _ (by decide) (by decide) h.symm
  · exact append_ne_diag "- Success rate: " _ (by decide) (by decide) h.symm
  · exact bucketLine_ne_diag "Auth" _ (by decide) (by decide) (by decide) h.symm
  · exact bucketLine_ne_diag "Client" _ (by decide) (by decide) (by decide) h.symm
  · exact bucketLine_ne_diag "Server" _ (by decide) (by decide) (by decide) h.symm

/-! ### C9: the no-samples diagnostic line -/

/-- C9: for a rendered summary whose failed-rate field is a valid rate, the
Errors section contains the no-samples diagnostic line exactly when the
failed-rate is nonzero and all three error-sample buffers are empty. -/
theorem C9_no_samples_diagnostic (inp : SummaryInput) (r : ℚ)
    (hr : inp.rateFailed = some r) (h0 : 0 ≤ r) :
    noSamplesDiagnostic ∈ errorsSection inp ↔
      (r ≠ 0 ∧ inp.authErrors = [] ∧ inp.clientErrors = [] ∧ inp.serverErrors = []) := by
  unfold errorsSection
  by_cases hc : 0 < inp.rateFailed.getD 0
      ∧ inp.authErrors.length + inp.clientErrors.length + inp.serverErrors.length = 0
  · rw [if_pos hc]
    constructor
    · intro _
      obtain ⟨hrpos, hsum⟩ := hc
      rw [hr] at hrpos
      simp only [Option.getD_some] at hrpos
      refine ⟨ne_of_gt hrpos, ?_, ?_, ?_⟩ <;> (rw [← List.length_eq_zero]; omega)
    · intro _
      simp
  · rw [if_neg hc]
    constructor
    · intro hmem
      exact absurd hmem (diag_not_mem_base inp)
    · rintro ⟨hne, ha, hcl, hs⟩
      exfalso
      apply hc
      refine ⟨?_, ?_⟩
      · rw [hr]
        simp only [Option.getD_some]
        exact lt_of_le_of_ne h0 (Ne.symm hne)
      · simp [ha, hcl, hs]

/-- C9 witness: failed-rate 0.2 with all buffers empty makes the diagnostic
line appear (the specification example). -/
theorem C9_no_samples_diagnostic_witness :
    noSamplesDiagnostic ∈ errorsSection
      { rateFailed := some (1/5), httpReqsCount := none, httpReqsRate := none,
        authErrors := [], clientErrors := [], serverErrors := [] } :=
  (C9_no_samples_diagnostic _ (1/5) rfl (by norm_num)).mpr
    ⟨by norm_num, rfl, rfl, rfl⟩

/-! ### C10: check name versus summary label -/

/-- C10: the per-iteration check is registered as `status is < 400` and
passes exactly on a nonzero status below 400, yet the Checks line rendered
by `handleSummary` is labelled `status < 500` for every input, so the label
never matches the predicate the check applies (status 450 satisfies the
label but fails the check). -/
theorem C10_checks_label_mismatch :
    statusCheckName = "status is < 400" ∧
      (∀ s : Nat, statusCheck s = true ↔ (s ≠ 0 ∧ s < 400)) ∧
      (∀ passes fails : Option ℚ,
        (checksLine passes fails).data.take 16 = ("- status < 500: ").data) ∧
      statusCheckName ≠ "status < 500" ∧
      (statusCheck 450 = false ∧ (450 : Nat) ≠ 0 ∧ (450 : Nat) < 500) := by
  refine ⟨rfl, ?_, ?_, by decide, by decide⟩
  · intro s
    simp [statusCheck]
  · intro p f
    rw [show checksLine p f
        = "- status < 500: " ++ ("passes=" ++ (fmtCount p ++ (" fails=" ++ fmtCount f)))
      from rfl]
    rw [take_data_append _ _ _ (by decide)]
    decide

end SmokeBootstrap
